import Mathlib

/-!
Verification of the `infinity_firestore` data-access layer
(`src/infinity_firestore/repository.py`, `model.py`).

Shallow embedding conventions:

* Python runtime values that can appear as Firestore filter values or
  document fields are modelled by `PyVal`; concrete Python classes that can
  appear as a pydantic field annotation are modelled by `PyType`.
* `isinstance` is modelled by `pyIsinstance`, including the CPython facts
  that every value is an instance of `object` and that `bool` is a subclass
  of `int`.
* `typing.Any` is NOT usable as the second argument of `isinstance`:
  CPython raises `TypeError("typing.Any cannot be used with isinstance()")`
  (`typing._AnyMeta.__instancecheck__`, Python >= 3.11; on 3.10 `Any` is a
  `_SpecialForm` and `isinstance` rejects it likewise).  This is modelled by
  `isinstanceChecked` returning `PyError.anyIsinstance`.
* Exceptions are modelled with `Except`; mutation of a Python object
  attribute is modelled by explicit state passing over a small heap of
  builder objects (`BHeap`), since each `FirestoreQueryBuilder` instance has
  exactly one mutable attribute, `_query`.
* The external `google-cloud-firestore` client is modelled from its
  documented interface: a `CollectionReference`/`Query` is an immutable
  query descriptor (`FsQuery`); `where`/`order_by`/`limit` each RETURN a new
  descriptor (the library docs say "Returns: A filtered query" etc., and the
  source's rebinding `self._query = self._query.where(...)` only makes sense
  under that reading); `stream()` asks the store for the documents matching
  a descriptor.
-/

/-- Python runtime values relevant to the repository: filter values and
document field values. -/
inductive PyVal where
  | vStr (s : String)
  | vInt (n : Int)
  | vBool (b : Bool)
  | vDatetime (t : Int)
  | vNone
deriving DecidableEq, Repr

/-- Concrete Python classes that can appear as a field annotation and as the
second argument of `isinstance`. `objectT` is Python's universal `object`. -/
inductive PyType where
  | strT
  | intT
  | boolT
  | datetimeT
  | objectT
deriving DecidableEq, Repr

/-- CPython `isinstance(value, cls)` for the modelled values and classes.
Every value is an instance of `object`; `bool` is a subclass of `int`. -/
def pyIsinstance : PyVal → PyType → Bool
  | _, .objectT => true
  | .vStr _, .strT => true
  | .vInt _, .intT => true
  | .vBool _, .boolT => true
  | .vBool _, .intT => true
  | .vDatetime _, .datetimeT => true
  | _, _ => false

/-- What `safe_annotation` can return: either a concrete Python class, or the
unresolved wildcard `typing.Any` passed through unchanged. -/
inductive SafeType where
  | ty (t : PyType)
  | anyT
deriving DecidableEq, Repr

/-- A pydantic field annotation as found in `model_fields[name].annotation`:
`None`, a concrete class, the wildcard `typing.Any`, or some non-class
object (a generic alias such as `list[str]`, a union such as `int | None`,
an unresolved forward reference, ...), for which `isinstance(ann, type)` is
`False`. -/
inductive PyAnnot where
  | noneA
  | tyA (t : PyType)
  | anyA
  | otherA
deriving DecidableEq, Repr

/-- `safe_annotation` (repository.py lines 28-35):
```
if annotation is None: return object
if isinstance(annotation, type) or annotation is Any: return annotation
return object
```
`typing.Any` satisfies the second test (on >= 3.11 it is itself a class, and
the explicit `annotation is Any` disjunct covers 3.10), so it is returned
unchanged; `None` and every non-class object fall back to `object`. -/
def safeAnnot : PyAnnot → SafeType
  | .noneA => .ty .objectT
  | .tyA t => .ty t
  | .anyA => .anyT
  | .otherA => .ty .objectT

/-- Errors raised by the modelled code paths. -/
inductive PyError where
  /-- `TypeError(f"Value {value} does not match field type {field.type_}")`
  raised by `FirestoreQueryBuilder.where` (line 67). -/
  | typeMismatch (value : PyVal) (expected : SafeType)
  /-- `TypeError("typing.Any cannot be used with isinstance()")` raised by
  `isinstance` itself when the field's stored type is `typing.Any`. -/
  | anyIsinstance
  /-- `AttributeError` raised by `FieldRef.__getattr__` (line 53). -/
  | attributeError (msg : String)
deriving DecidableEq, Repr

/-- Evaluation of `isinstance(v, st)` where `st` came from `safe_annotation`:
a concrete class gives a boolean, `typing.Any` raises. -/
def isinstanceChecked (v : PyVal) : SafeType → Except PyError Bool
  | .ty t => .ok (pyIsinstance v t)
  | .anyT => .error .anyIsinstance

/-- `FieldPath` (repository.py lines 17-25): a field name together with the
type resolved for it; `__str__` returns the name. -/
structure FieldPath where
  name : String
  type_ : SafeType
deriving DecidableEq, Repr

/-- `str(field)` for a `FieldPath` (its `__str__`, line 24-25). -/
def FieldPath.toStr (f : FieldPath) : String := f.name

/-- The "any" fallback marker of the spec: the resolved declared types for
which the builder's runtime check is not a genuine check — the universal
`object` fallback and the wildcard `typing.Any`. -/
def SafeType.isAnyMarker : SafeType → Bool
  | .ty .objectT => true
  | .anyT => true
  | _ => false

/-- An immutable query descriptor of the external Firestore client library:
the accumulated filter clauses, ordering pairs and optional limit of a
`CollectionReference`/`Query` object.  A bare collection reference is
`FsQuery.collection`. -/
structure FsQuery where
  filters : List (String × String × PyVal)
  orders : List (String × String)
  limit_ : Option Int
deriving DecidableEq, Repr

/-- A bare `CollectionReference`: no filters, no ordering, no limit. -/
def FsQuery.collection : FsQuery := ⟨[], [], none⟩

/-- `Query.where(filter=FieldFilter(path, op, value))` of the client library:
returns a NEW query with the filter clause appended. -/
def FsQuery.fsWhere (q : FsQuery) (path op : String) (v : PyVal) : FsQuery :=
  { q with filters := q.filters ++ [(path, op, v)] }

/-- `Query.order_by(path, direction=direction)`: returns a new query with the
ordering pair appended. -/
def FsQuery.fsOrderBy (q : FsQuery) (path direction : String) : FsQuery :=
  { q with orders := q.orders ++ [(path, direction)] }

/-- `Query.limit(n)`: returns a new query with the limit set/overwritten. -/
def FsQuery.fsLimit (q : FsQuery) (n : Int) : FsQuery :=
  { q with limit_ := some n }

/-- `Query.ASCENDING`, the default direction of `order_by`. -/
def queryASCENDING : String := "ASCENDING"

/-- The result of a Python attribute lookup on a `FieldRef` instance. -/
inductive AttrVal where
  /-- the `FieldPath` stored by `setattr` in `FieldRef.__init__` -/
  | fieldPath (p : FieldPath)
  /-- the model class stored by `self.model_class = model_class` -/
  | modelClassAttr (modelName : String)
  /-- an attribute found on the `FieldRef` class itself (a method such as
  `__init__`/`__getattr__`, or a dunder inherited from `object`/`Generic`
  such as `__class__`, `__dict__`, `__str__`) -/
  | classAttr (name : String)
deriving DecidableEq, Repr

/-- A `FieldRef` instance (repository.py lines 38-53), described by the data
its `__init__` received: the model class's name and its `model_fields`
(declared field name, static annotation) in declaration order.  Keys are
distinct (`model_fields` is a dict).  `__init__` stores `model_class` on the
instance and then one `FieldPath(name, safe_annotation(ann))` per declared
field. -/
structure FieldRef where
  modelName : String
  declared : List (String × PyAnnot)
deriving DecidableEq, Repr

/-- Python attribute access `ref.<name>` on a `FieldRef` instance,
following CPython's `object.__getattribute__` protocol:

1. the class and its MRO are searched; a data descriptor found there wins
   immediately.  The only data descriptors in `FieldRef`'s MRO are the
   `object`/`Generic` getsets (`__dict__`, `__class__`, ...), whose names
   can never collide with an instance attribute (pydantic rejects
   underscore-prefixed model fields, and `__init__` stores only the
   declared field names and `model_class`), so they are folded into the
   class-attribute branch below without changing behavior on any state the
   program can construct;
2. the instance `__dict__`: the per-field `FieldPath`s and `model_class`
   (a declared field named `"model_class"` is `setattr` AFTER
   `self.model_class = ...` and shadows it);
3. a non-data class attribute found in step 1 — the methods `__init__` and
   `__getattr__`, and everything inherited from `object`/`Generic`;
4. only when all of that fails is `__getattr__` invoked, which raises
   `AttributeError(f"Field {name} does not exist in model {model}")`.

`classAttrs` is the set of names step 1/3 resolves on the class; the exact
set is CPython's, so theorems quantify over an arbitrary such set (see
`fieldRefClassAttrSample` for a representative concrete one). -/
def FieldRef.getattr (classAttrs : List String) (ref : FieldRef)
    (name : String) : Except PyError AttrVal :=
  match ref.declared.lookup name with
  | some ann => .ok (.fieldPath ⟨name, safeAnnot ann⟩)
  | none =>
    if name = "model_class" then
      .ok (.modelClassAttr ref.modelName)
    else if classAttrs.contains name then
      .ok (.classAttr name)
    else
      .error (.attributeError
        ("Field " ++ name ++ " does not exist in model " ++ ref.modelName))

/-- A representative sample of the names resolvable on the `FieldRef` class
itself: its two methods and some dunders inherited from `object`/`Generic`.
The true set is whatever `type(ref).__mro__` provides; the C6 theorem holds
for an ARBITRARY such set, this sample only instantiates concrete
examples. -/
def fieldRefClassAttrSample : List String :=
  ["__init__", "__getattr__", "__class__", "__dict__", "__str__", "__repr__"]

/-!
## The query builder

A `FirestoreQueryBuilder` instance has one mutable attribute `_query`
(initially the bare collection reference).  Instances live on a small heap
`BHeap`; an object reference is an index into it.  Each method reads
`_query`, possibly rebinds it, and returns `self` (the same reference).
-/

/-- Heap of `FirestoreQueryBuilder` objects: position `i` holds the current
`_query` attribute of the builder object with identity `i`. -/
abbrev BHeap := List FsQuery

/-- Builder object identity. -/
abbrev BuilderRef := Nat

/-- Read the `_query` attribute of builder `b`. -/
def heapQuery (h : BHeap) (b : BuilderRef) : FsQuery :=
  h.getD b FsQuery.collection

namespace FirestoreQueryBuilder

/-- `FirestoreQueryBuilder.where` (repository.py lines 63-69):
```
if not isinstance(value, field.type_):
    raise TypeError(f"Value {value} does not match field type {field.type_}")
self._query = self._query.where(filter=FieldFilter(str(field), op, value))
return self
```
A raised exception leaves the heap unchanged; on success `_query` is rebound
to a new descriptor and the SAME builder reference is returned.  No store
interaction occurs here (only `execute` talks to the store). -/
def where_ (h : BHeap) (b : BuilderRef) (field : FieldPath) (op : String)
    (value : PyVal) : BHeap × Except PyError BuilderRef :=
  match isinstanceChecked value field.type_ with
  | .error e => (h, .error e)
  | .ok inst =>
    if !inst then
      (h, .error (.typeMismatch value field.type_))
    else
      (h.set b ((heapQuery h b).fsWhere field.toStr op value), .ok b)

/-- `FirestoreQueryBuilder.order_by` (lines 71-74): rebinds `_query` to a new
descriptor with the ordering appended and returns the same builder. -/
def order_by (h : BHeap) (b : BuilderRef) (field : FieldPath)
    (direction : String := queryASCENDING) : BHeap × BuilderRef :=
  (h.set b ((heapQuery h b).fsOrderBy field.toStr direction), b)

/-- `FirestoreQueryBuilder.limit` (lines 76-79): rebinds `_query` to a new
descriptor with the limit set and returns the same builder. -/
def limit (h : BHeap) (b : BuilderRef) (count : Int) : BHeap × BuilderRef :=
  (h.set b ((heapQuery h b).fsLimit count), b)

/-- `FirestoreQueryBuilder.build` (lines 81-83): returns the object currently
bound to `_query`.  Query descriptors of the client library are immutable
values, so the returned descriptor is modelled by its value. -/
def build (h : BHeap) (b : BuilderRef) : FsQuery :=
  heapQuery h b

end FirestoreQueryBuilder

/-- A document as produced by `stream()`: `raw` is what `doc.to_dict()`
returns (`none` when the document has no data) and `id` the document id. -/
structure FsDoc where
  raw : Option (List (String × PyVal))
  id : String
deriving DecidableEq, Repr

/-- Python truthiness of `doc.to_dict()`: `None` and the empty dict are
falsy, every non-empty dict is truthy. -/
def toDictTruthy (d : FsDoc) : Bool :=
  match d.raw with
  | none => false
  | some m => !m.isEmpty

/-!
## Records and the repository

A pydantic model instance (`Model` of model.py: `id`, `created_at`,
`updated_at` plus the subclass's domain fields) is modelled generically as
its identifier together with the remaining (field name, value) pairs in
declaration order.  A record is well formed when `"id"` is not among the
remaining keys (pydantic fields are distinct).  Pydantic validation of
missing/extra keys on construction is not modelled: the record is the
generic field-map view that `model_dump` exposes.
-/

/-- A pydantic model instance: its `id` field and all remaining fields. -/
structure PyRecord where
  id : String
  data : List (String × PyVal)
deriving DecidableEq, Repr

/-- Well-formedness: the non-id fields do not use the key `"id"`. -/
def PyRecord.wf (r : PyRecord) : Bool :=
  r.data.all (fun kv => kv.1 != "id")

namespace FirestoreRepository

/-- `FirestoreRepository._to_dict` (repository.py lines 115-122):
`model.model_dump(exclude={"id"})` gives every field but the identifier;
the loop `for key, value in data.items(): if isinstance(value, datetime):
data[key] = value` writes each datetime value back unchanged. -/
def _to_dict (r : PyRecord) : List (String × PyVal) :=
  r.data.map (fun kv =>
    if pyIsinstance kv.2 .datetimeT then (kv.1, kv.2) else kv)

/-- `FirestoreRepository._from_dict` (lines 124-129):
```
if not data: data = {}
data.update({"id": doc_id})
return self.model_class(**data)
```
`data.update` binds key `"id"` to `doc_id`, overwriting any `"id"` already
present; construction then takes the identifier from that key and every
other declared field from the remaining keys. -/
def _from_dict (data : Option (List (String × PyVal))) (doc_id : String) :
    PyRecord :=
  let d := match data with
    | none => []
    | some m => m
  ⟨doc_id, d.filter (fun kv => kv.1 != "id")⟩

/-- `FirestoreQueryBuilder.execute` (lines 85-88) — placed here because it
needs `_from_dict`'s shape only through its argument:
```
docs = self.build().stream()
return [from_dict_func(doc.to_dict(), doc.id) for doc in docs if doc.to_dict()]
```
`store` maps the built descriptor to the store's (ordered) streamed
documents. -/
def executeBuilder (h : BHeap) (b : BuilderRef)
    (from_dict_func : Option (List (String × PyVal)) → String → PyRecord)
    (store : FsQuery → List FsDoc) : List PyRecord :=
  let docs := store (FirestoreQueryBuilder.build h b)
  (docs.filter toDictTruthy).map (fun d => from_dict_func d.raw d.id)

/-- `FirestoreRepository.create` (lines 131-148): encodes the model without
its `id`, writes that map under a fresh store-generated document reference
(`gen_id`), and rebuilds the model from `model.model_dump()` with `"id"`
overwritten by the generated id.  Returns the pair (map sent to the store,
returned model). -/
def create (gen_id : String) (m : PyRecord) :
    List (String × PyVal) × PyRecord :=
  let data := _to_dict m
  (data, ⟨gen_id, m.data⟩)

/-- A `DocumentSnapshot` as returned by `document(doc_id).get()`. -/
structure FsSnapshot where
  exists_ : Bool
  raw : Option (List (String × PyVal))
deriving DecidableEq, Repr

/-- `FirestoreRepository.get_by_id` (lines 150-162): `store` is the store's
response to `collection.document(doc_id).get()`.
```
doc = self.collection.document(doc_id).get()
if not doc.exists: return None
return self._from_dict(doc.to_dict(), doc_id)
```
-/
def get_by_id (store : String → FsSnapshot) (doc_id : String) :
    Option PyRecord :=
  let doc := store doc_id
  if !doc.exists_ then
    none
  else
    some (_from_dict doc.raw doc_id)

/-- The store's `stream()` for the query `list_all` builds (no filters or
orderings; only the limit matters).  A non-negative limit `n` yields the
first `n` documents; negative limits are left to the store by the source
(spec section 4.2) and are not relied upon by any theorem below. -/
def streamCollection (coll : List FsDoc) (q : FsQuery) : List FsDoc :=
  match q.limit_ with
  | none => coll
  | some n => coll.take n.toNat

/-- `FirestoreRepository.list_all` (lines 196-208):
```
query = self.collection
if limit: query = query.limit(limit)
docs = query.stream()
return [self._from_dict(doc.to_dict(), doc.id) for doc in docs]
```
`if limit:` is Python truthiness: `None` and `0` are falsy, every other int
truthy.  Note there is no `if doc.to_dict()` filter here. -/
def list_all (coll : List FsDoc) (limit : Option Int) : List PyRecord :=
  let q := FsQuery.collection
  let q := match limit with
    | none => q
    | some n => if n ≠ 0 then q.fsLimit n else q
  let docs := streamCollection coll q
  docs.map (fun d => _from_dict d.raw d.id)

end FirestoreRepository

/-!
## Helper lemmas
-/

/-- Writing `_query` of builder `b` and reading it back gives the new value
(the reference must denote an allocated object). -/
theorem heapQuery_set (h : BHeap) (b : BuilderRef) (q : FsQuery)
    (hb : b < h.length) : heapQuery (h.set b q) b = q := by
  simp [heapQuery, List.getD_eq_getElem?_getD, List.getElem?_set_self hb]

/-- The datetime write-back loop of `_to_dict` is the identity: the encoded
map is exactly the record's non-id fields, timestamps included. -/
theorem _to_dict_eq_data (r : PyRecord) :
    FirestoreRepository._to_dict r = r.data := by
  unfold FirestoreRepository._to_dict
  have : (fun kv : String × PyVal =>
      if pyIsinstance kv.2 .datetimeT then (kv.1, kv.2) else kv) = fun kv => kv := by
    funext kv
    by_cases hc : pyIsinstance kv.2 .datetimeT = true <;> simp [hc]
  rw [this, List.map_id']

/-- On a well-formed record the `"id"`-dropping filter of `_from_dict` keeps
every non-id field. -/
theorem filter_ne_id_of_wf (r : PyRecord) (hr : r.wf = true) :
    r.data.filter (fun kv => kv.1 != "id") = r.data := by
  rw [List.filter_eq_self]
  exact fun a ha => List.all_eq_true.mp hr a ha

/-!
## Claims
-/

/-- C1: for every field whose declared type is not the "any" fallback marker,
`FirestoreQueryBuilder.where(field, op, value)` with a value whose runtime
type is not an instance of the declared type raises the type-mismatch
`TypeError` reporting the value and the expected type; the builder's
descriptor heap is returned unchanged, and no store call is made (`where_`
does not even receive the store: only `executeBuilder` talks to it). -/
theorem C1_where_type_mismatch (h : BHeap) (b : BuilderRef) (f : FieldPath)
    (op : String) (v : PyVal) (t : PyType) (hty : f.type_ = .ty t)
    (_hmk : f.type_.isAnyMarker = false) (hinst : pyIsinstance v t = false) :
    FirestoreQueryBuilder.where_ h b f op v =
      (h, .error (.typeMismatch v f.type_)) := by
  unfold FirestoreQueryBuilder.where_
  rw [hty]
  simp [isinstanceChecked, hinst, hty]

/-- Witness for C1: an `int`-typed field rejects the string `"18"`. -/
theorem C1_witness :
    FirestoreQueryBuilder.where_ [FsQuery.collection] 0
        ⟨"age", .ty .intT⟩ ">=" (.vStr "18") =
      ([FsQuery.collection],
        .error (.typeMismatch (.vStr "18") (.ty .intT))) :=
  C1_where_type_mismatch [FsQuery.collection] 0 ⟨"age", .ty .intT⟩ ">=" (.vStr "18")
    .intT rfl (by decide) (by decide)

/-- C2 counterexample: take a builder `b` (heap `[FsQuery.collection]`,
reference `0`) and let `d := b.build()`.  The claim says a subsequent
`b.limit(5)` mutates `d` itself, i.e. `d` equals the descriptor the builder
holds after the call.  It does not: `limit` rebinds `_query` to a NEW
descriptor (`Query.limit` of the client library returns a new query object),
so `d` still carries no limit while the builder's descriptor now does. -/
theorem C2_counterexample :
    ¬ (FirestoreQueryBuilder.build [FsQuery.collection] 0 =
        FirestoreQueryBuilder.build
          (FirestoreQueryBuilder.limit [FsQuery.collection] 0 5).1
          (FirestoreQueryBuilder.limit [FsQuery.collection] 0 5).2) := by
  decide

/-- C2 amended: `build()` returns (a reference to) the descriptor the
builder currently holds, but descriptors of the client library are immutable
and each subsequent `where`/`order_by`/`limit` call rebinds the builder's
`_query` to a new descriptor derived from the old one.  So the returned
description is a snapshot of the constraints at `build()` time: after a
later `limit n` call on the same builder reference, `b.build()` is the OLD
descriptor with the limit added — not the old descriptor itself — and the
two differ whenever the old descriptor's limit was not already `n`.
(Analogous rebinding for `where`/`order_by` is proved in
`C7_chain_accumulates`.) -/
theorem C2_build_returns_snapshot (h : BHeap) (b : BuilderRef) (n : Int)
    (hb : b < h.length) :
    (FirestoreQueryBuilder.limit h b n).2 = b ∧
    FirestoreQueryBuilder.build (FirestoreQueryBuilder.limit h b n).1 b =
      (FirestoreQueryBuilder.build h b).fsLimit n ∧
    ((FirestoreQueryBuilder.build h b).limit_ ≠ some n →
      FirestoreQueryBuilder.build (FirestoreQueryBuilder.limit h b n).1 b ≠
        FirestoreQueryBuilder.build h b) := by
  refine ⟨rfl, ?_, ?_⟩
  · unfold FirestoreQueryBuilder.build FirestoreQueryBuilder.limit
    exact heapQuery_set h b _ hb
  · intro hne heq
    apply hne
    have : FirestoreQueryBuilder.build (FirestoreQueryBuilder.limit h b n).1 b =
        (FirestoreQueryBuilder.build h b).fsLimit n := by
      unfold FirestoreQueryBuilder.build FirestoreQueryBuilder.limit
      exact heapQuery_set h b _ hb
    rw [this] at heq
    rw [← heq]
    rfl

/-- Witness for C2's amended theorem at the counterexample's input. -/
theorem C2_witness :
    0 < [FsQuery.collection].length ∧
    FirestoreQueryBuilder.build
        (FirestoreQueryBuilder.limit [FsQuery.collection] 0 5).1 0 =
      (FirestoreQueryBuilder.build [FsQuery.collection] 0).fsLimit 5 :=
  ⟨by decide, (C2_build_returns_snapshot [FsQuery.collection] 0 5 (by decide)).2.1⟩

/-- C3 counterexample: a field whose annotation is literally `typing.Any`
resolves to the wildcard marker (`safe_annotation` returns `Any` unchanged),
yet `where` on it raises for every value — CPython's
`isinstance(value, typing.Any)` itself raises
`TypeError("typing.Any cannot be used with isinstance()")` — so the runtime
type check on such a field is NOT disabled: the call never succeeds. -/
theorem C3_counterexample :
    safeAnnot .anyA = .anyT ∧ SafeType.anyT.isAnyMarker = true ∧
    FirestoreQueryBuilder.where_ [FsQuery.collection] 0
        ⟨"extra", .anyT⟩ "==" (.vStr "x") =
      ([FsQuery.collection], .error .anyIsinstance) := by
  exact ⟨rfl, rfl, rfl⟩

/-- C3 amended: the runtime type check is fully disabled only for the
`object` half of the "any" fallback marker (annotation `None`, or any
annotation that is not a class — containers, unions, unresolved references):
there `where` never raises and appends the filter for every value.  For a
field whose annotation is literally the wildcard `typing.Any`, the marker is
`Any` itself and `where` instead raises a `TypeError` from `isinstance` (not
the type-mismatch `TypeError`) for EVERY value, leaving the descriptor
unchanged. -/
theorem C3_any_marker_behavior (h : BHeap) (b : BuilderRef) (f : FieldPath)
    (op : String) (v : PyVal) :
    (f.type_ = .ty .objectT →
      FirestoreQueryBuilder.where_ h b f op v =
        (h.set b ((heapQuery h b).fsWhere f.toStr op v), .ok b)) ∧
    (f.type_ = .anyT →
      FirestoreQueryBuilder.where_ h b f op v =
        (h, .error .anyIsinstance)) := by
  constructor
  · intro hty
    unfold FirestoreQueryBuilder.where_
    rw [hty]
    simp [isinstanceChecked, pyIsinstance]
  · intro hty
    unfold FirestoreQueryBuilder.where_
    rw [hty]
    simp [isinstanceChecked]

/-- Witness for C3's amended theorem: an `object`-fallback field accepts an
int with the filter appended; a `typing.Any` field raises on the same
value. -/
theorem C3_witness :
    (FirestoreQueryBuilder.where_ [FsQuery.collection] 0
        ⟨"meta", .ty .objectT⟩ "==" (.vInt 3) =
      ([⟨[("meta", "==", .vInt 3)], [], none⟩], .ok 0)) ∧
    (FirestoreQueryBuilder.where_ [FsQuery.collection] 0
        ⟨"extra2", .anyT⟩ "==" (.vInt 3) =
      ([FsQuery.collection], .error .anyIsinstance)) :=
  ⟨(C3_any_marker_behavior [FsQuery.collection] 0 ⟨"meta", .ty .objectT⟩ "==" (.vInt 3)).1 rfl,
   (C3_any_marker_behavior [FsQuery.collection] 0 ⟨"extra2", .anyT⟩ "==" (.vInt 3)).2 rfl⟩

/-- Spec-side notion for C4: the raw field map of a streamed document is
present and non-empty. -/
def presentNonEmpty (d : FsDoc) : Bool :=
  match d.raw with
  | none => false
  | some m => decide (m ≠ [])

/-- The comprehension filter of `execute` coincides with C4's "present and
non-empty" condition. -/
theorem toDictTruthy_eq_presentNonEmpty (d : FsDoc) :
    toDictTruthy d = presentNonEmpty d := by
  unfold toDictTruthy presentNonEmpty
  cases hd : d.raw with
  | none => rfl
  | some m => cases m <;> simp

/-- C4: for every store response, `execute(decode_fn)` returns exactly the
decoded records of the streamed documents whose raw field map is present and
non-empty, in the store's result order; a document with an absent or empty
raw map contributes no output entry and causes no error (`executeBuilder` is
total — skipped documents are never passed to the decoder). -/
theorem C4_execute_skips_empty (h : BHeap) (b : BuilderRef)
    (f : Option (List (String × PyVal)) → String → PyRecord)
    (store : FsQuery → List FsDoc) :
    FirestoreRepository.executeBuilder h b f store =
      (store (FirestoreQueryBuilder.build h b)).filterMap
        (fun d => if presentNonEmpty d then some (f d.raw d.id) else none) := by
  unfold FirestoreRepository.executeBuilder
  induction store (FirestoreQueryBuilder.build h b) with
  | nil => rfl
  | cons d ds ih =>
    by_cases hd : presentNonEmpty d = true
    · simp only [List.filter_cons, List.filterMap_cons,
        toDictTruthy_eq_presentNonEmpty, hd, if_pos, List.map_cons]
      rw [← ih]
    · have hd' : presentNonEmpty d = false := by
        cases hp : presentNonEmpty d
        · rfl
        · exact absurd hp hd
      simp only [List.filter_cons, List.filterMap_cons,
        toDictTruthy_eq_presentNonEmpty, hd']
      simpa using ih

/-- C5: round-trip.  `_to_dict` excludes only the identifier field and
leaves every other field (timestamps included) unchanged, and
`_from_dict(_to_dict(r), i)` rebuilds `r` with its `id` replaced by `i` —
equal to `r` itself when `i = r.id`. -/
theorem C5_roundtrip (r : PyRecord) (i : String) (hr : r.wf = true) :
    FirestoreRepository._to_dict r = r.data ∧
    FirestoreRepository._from_dict (some (FirestoreRepository._to_dict r)) i =
      { r with id := i } ∧
    (i = r.id →
      FirestoreRepository._from_dict (some (FirestoreRepository._to_dict r)) i = r) := by
  have hencode := _to_dict_eq_data r
  have hdecode :
      FirestoreRepository._from_dict (some (FirestoreRepository._to_dict r)) i =
        { r with id := i } := by
    unfold FirestoreRepository._from_dict
    rw [hencode]
    simp only []
    rw [filter_ne_id_of_wf r hr]
  refine ⟨hencode, hdecode, ?_⟩
  intro hi
  rw [hdecode, hi]

/-- Witness for C5 on a concrete `User`-like record with timestamps, decoded
back both under a fresh identifier and under its own identifier. -/
theorem C5_witness :
    (PyRecord.mk "u1" [("created_at", .vDatetime 0), ("updated_at", .vDatetime 1),
        ("name", .vStr "n"), ("age", .vInt 30)]).wf = true ∧
    FirestoreRepository._from_dict
        (some (FirestoreRepository._to_dict
          (PyRecord.mk "u1" [("created_at", .vDatetime 0), ("updated_at", .vDatetime 1),
            ("name", .vStr "n"), ("age", .vInt 30)]))) "u2" =
      PyRecord.mk "u2" [("created_at", .vDatetime 0), ("updated_at", .vDatetime 1),
        ("name", .vStr "n"), ("age", .vInt 30)] :=
  ⟨by decide,
   (C5_roundtrip
      (PyRecord.mk "u1" [("created_at", .vDatetime 0), ("updated_at", .vDatetime 1),
        ("name", .vStr "n"), ("age", .vInt 30)]) "u2" (by decide)).2.1⟩

/-- C6 counterexample: on a model `User` declaring only `name` and `age`,
neither `"model_class"` nor `"__init__"` is a declared field, yet looking
either up on the `FieldRef` does NOT fail with a "no such field" error:
`__init__` stored `self.model_class` on the instance, `"__init__"` itself
resolves on the class, and `__getattr__` is never invoked for them. -/
theorem C6_counterexample :
    ([("name", PyAnnot.tyA .strT), ("age", PyAnnot.tyA .intT)].lookup
        "model_class" = (none : Option PyAnnot)) ∧
    FieldRef.getattr fieldRefClassAttrSample
        ⟨"User", [("name", .tyA .strT), ("age", .tyA .intT)]⟩
        "model_class" = .ok (.modelClassAttr "User") ∧
    FieldRef.getattr fieldRefClassAttrSample
        ⟨"User", [("name", .tyA .strT), ("age", .tyA .intT)]⟩
        "__init__" = .ok (.classAttr "__init__") :=
  ⟨rfl, rfl, rfl⟩

/-- C6 amended: for every declared field `f` the `FieldRef` exposes a handle
with `name = f` and declared type `safe_annotation` of `f`'s static
annotation — the static type itself when that is a concrete class, and the
"any" fallback marker when the annotation is `None`, non-class, or the
wildcard `Any`.  Looking up a name that is none of a declared field, the
instance's own `model_class` attribute, or an attribute of the `FieldRef`
class itself (its methods and the dunders inherited from
`object`/`Generic`), fails with an `AttributeError` identifying the Record
Type and the attempted name; names in those three groups resolve without
error.  `classAttrs` is an arbitrary set of class-attribute names, so the
statement does not depend on any particular enumeration of CPython's MRO
lookup. -/
theorem C6_field_handles (classAttrs : List String) (ref : FieldRef)
    (f : String) (ann : PyAnnot) (hf : ref.declared.lookup f = some ann) :
    FieldRef.getattr classAttrs ref f = .ok (.fieldPath ⟨f, safeAnnot ann⟩) ∧
    (∀ t, ann = .tyA t → safeAnnot ann = .ty t) ∧
    ((ann = .noneA ∨ ann = .anyA ∨ ann = .otherA) →
      (safeAnnot ann).isAnyMarker = true) ∧
    (∀ g : String, ref.declared.lookup g = none → g ≠ "model_class" →
      classAttrs.contains g = true →
      FieldRef.getattr classAttrs ref g = .ok (.classAttr g)) ∧
    (∀ g : String, ref.declared.lookup g = none → g ≠ "model_class" →
      classAttrs.contains g = false →
      FieldRef.getattr classAttrs ref g = .error (.attributeError
        ("Field " ++ g ++ " does not exist in model " ++ ref.modelName))) := by
  refine ⟨?_, ?_, ?_, ?_, ?_⟩
  · unfold FieldRef.getattr
    rw [hf]
  · intro t ht
    rw [ht]
    rfl
  · intro hcase
    rcases hcase with hc | hc | hc <;> rw [hc] <;> rfl
  · intro g hg hgm hcls
    have hmem : g ∈ classAttrs := by simpa using hcls
    unfold FieldRef.getattr
    rw [hg]
    simp [hgm, hmem]
  · intro g hg hgm hcls
    have hmem : g ∉ classAttrs := by simpa using hcls
    unfold FieldRef.getattr
    rw [hg]
    simp [hgm, hmem]

/-- Witness for C6's amended theorem: on `User{name: str, age: int}` the
`age` handle is typed `int`, and the name `"email"` — undeclared, not
`model_class`, not a class attribute — fails with the no-such-field
error. -/
theorem C6_witness :
    FieldRef.getattr fieldRefClassAttrSample
        ⟨"User", [("name", .tyA .strT), ("age", .tyA .intT)]⟩
        "age" = .ok (.fieldPath ⟨"age", .ty .intT⟩) ∧
    FieldRef.getattr fieldRefClassAttrSample
        ⟨"User", [("name", .tyA .strT), ("age", .tyA .intT)]⟩
        "email" = .error (.attributeError
          ("Field " ++ "email" ++ " does not exist in model " ++ "User")) :=
  ⟨(C6_field_handles fieldRefClassAttrSample
      ⟨"User", [("name", .tyA .strT), ("age", .tyA .intT)]⟩
      "age" (.tyA .intT) rfl).1,
   (C6_field_handles fieldRefClassAttrSample
      ⟨"User", [("name", .tyA .strT), ("age", .tyA .intT)]⟩
      "age" (.tyA .intT) rfl).2.2.2.2 "email" rfl (by decide) (by decide)⟩

/-- C7: chaining `where(...).order_by(...).limit(n)` on one builder: each of
the three methods returns the SAME builder reference, and `build()` on the
result carries the filter clause, the ordering pair, and the limit together,
accumulated onto whatever the builder held before the chain. -/
theorem C7_chain_accumulates (h : BHeap) (b : BuilderRef) (f1 : FieldPath)
    (op : String) (v : PyVal) (f2 : FieldPath) (dir : String) (n : Int)
    (hb : b < h.length) (t : PyType) (hty : f1.type_ = .ty t)
    (hinst : pyIsinstance v t = true) :
    FirestoreQueryBuilder.where_ h b f1 op v =
      (h.set b ((heapQuery h b).fsWhere f1.toStr op v), .ok b) ∧
    (let h1 := h.set b ((heapQuery h b).fsWhere f1.toStr op v)
     let s2 := FirestoreQueryBuilder.order_by h1 b f2 dir
     let s3 := FirestoreQueryBuilder.limit s2.1 s2.2 n
     s2.2 = b ∧ s3.2 = b ∧
     FirestoreQueryBuilder.build s3.1 s3.2 =
       { filters := (FirestoreQueryBuilder.build h b).filters ++ [(f1.toStr, op, v)],
         orders := (FirestoreQueryBuilder.build h b).orders ++ [(f2.toStr, dir)],
         limit_ := some n }) := by
  have hwhere : FirestoreQueryBuilder.where_ h b f1 op v =
      (h.set b ((heapQuery h b).fsWhere f1.toStr op v), .ok b) := by
    unfold FirestoreQueryBuilder.where_
    rw [hty]
    simp [isinstanceChecked, hinst]
  refine ⟨hwhere, rfl, rfl, ?_⟩
  have hb1 : b < (h.set b ((heapQuery h b).fsWhere f1.toStr op v)).length := by
    simpa using hb
  have hq1 : heapQuery (h.set b ((heapQuery h b).fsWhere f1.toStr op v)) b =
      (heapQuery h b).fsWhere f1.toStr op v :=
    heapQuery_set h b _ hb
  have hb2 : b < ((h.set b ((heapQuery h b).fsWhere f1.toStr op v)).set b
      ((heapQuery (h.set b ((heapQuery h b).fsWhere f1.toStr op v)) b).fsOrderBy
        f2.toStr dir)).length := by
    simpa using hb
  show FirestoreQueryBuilder.build _ _ = _
  unfold FirestoreQueryBuilder.build FirestoreQueryBuilder.limit
    FirestoreQueryBuilder.order_by
  rw [heapQuery_set _ b _ hb2, heapQuery_set _ b _ hb1, hq1]
  rfl

/-- Witness for C7: the chain
`where("age", ">=", 18).order_by("name").limit(10)` on a fresh builder
yields one descriptor carrying all three constraints, with the same builder
reference returned throughout. -/
theorem C7_witness :
    0 < [FsQuery.collection].length ∧ pyIsinstance (.vInt 18) .intT = true ∧
    FirestoreQueryBuilder.where_ [FsQuery.collection] 0
        ⟨"age", .ty .intT⟩ ">=" (.vInt 18) =
      ([FsQuery.collection].set 0
        ((heapQuery [FsQuery.collection] 0).fsWhere "age" ">=" (.vInt 18)), .ok 0) ∧
    FirestoreQueryBuilder.build
        (FirestoreQueryBuilder.limit
          (FirestoreQueryBuilder.order_by
            ([FsQuery.collection].set 0
              ((heapQuery [FsQuery.collection] 0).fsWhere "age" ">=" (.vInt 18)))
            0 ⟨"name", .ty .strT⟩ queryASCENDING).1
          (FirestoreQueryBuilder.order_by
            ([FsQuery.collection].set 0
              ((heapQuery [FsQuery.collection] 0).fsWhere "age" ">=" (.vInt 18)))
            0 ⟨"name", .ty .strT⟩ queryASCENDING).2 10).1
        (FirestoreQueryBuilder.limit
          (FirestoreQueryBuilder.order_by
            ([FsQuery.collection].set 0
              ((heapQuery [FsQuery.collection] 0).fsWhere "age" ">=" (.vInt 18)))
            0 ⟨"name", .ty .strT⟩ queryASCENDING).1
          (FirestoreQueryBuilder.order_by
            ([FsQuery.collection].set 0
              ((heapQuery [FsQuery.collection] 0).fsWhere "age" ">=" (.vInt 18)))
            0 ⟨"name", .ty .strT⟩ queryASCENDING).2 10).2 =
      ⟨[("age", ">=", .vInt 18)], [("name", queryASCENDING)], some 10⟩ := by
  have hmain := C7_chain_accumulates [FsQuery.collection] 0
    ⟨"age", .ty .intT⟩ ">=" (.vInt 18) ⟨"name", .ty .strT⟩ queryASCENDING 10
    (by decide) .intT rfl (by decide)
  exact ⟨by decide, by decide, hmain.1, hmain.2.2.2⟩

/-- C8: `get_by_id(doc_id)` returns `None` — an explicit absent result, not
an exception (`get_by_id` is total into `Option`) — whenever the store
reports the document does not exist, and otherwise the record decoded by
`_from_dict` from the document's raw map and `doc_id`. -/
theorem C8_get_by_id (store : String → FirestoreRepository.FsSnapshot)
    (doc_id : String) :
    FirestoreRepository.get_by_id store doc_id =
      (if (store doc_id).exists_ then
        some (FirestoreRepository._from_dict (store doc_id).raw doc_id)
      else none) := by
  unfold FirestoreRepository.get_by_id
  cases hex : (store doc_id).exists_ <;> simp [hex]

/-- C9: `create(m)` ignores `m`'s own pre-generated `id`: the map written to
the store is exactly `m`'s non-id fields (the key `"id"` is never sent), and
the returned model equals `m` in every field except `id`, which is the
store-generated identifier of the fresh document reference. -/
theorem C9_create (gen_id : String) (m : PyRecord) (hm : m.wf = true) :
    (FirestoreRepository.create gen_id m).1 = m.data ∧
    (FirestoreRepository.create gen_id m).1.all (fun kv => kv.1 != "id") = true ∧
    (FirestoreRepository.create gen_id m).2 = { m with id := gen_id } ∧
    (FirestoreRepository.create gen_id m).2.id = gen_id ∧
    (FirestoreRepository.create gen_id m).2.data = m.data := by
  have hdata : (FirestoreRepository.create gen_id m).1 = m.data := by
    show FirestoreRepository._to_dict m = m.data
    exact _to_dict_eq_data m
  refine ⟨hdata, ?_, rfl, rfl, rfl⟩
  rw [hdata]
  exact hm

/-- Witness for C9: creating a record that already carries the client-side
id `"client-id"` writes only the non-id fields and returns the record under
the store-generated `"srv-7"`. -/
theorem C9_witness :
    (PyRecord.mk "client-id" [("name", .vStr "n"), ("age", .vInt 3)]).wf = true ∧
    (FirestoreRepository.create "srv-7"
        (PyRecord.mk "client-id" [("name", .vStr "n"), ("age", .vInt 3)])).1 =
      [("name", .vStr "n"), ("age", .vInt 3)] ∧
    (FirestoreRepository.create "srv-7"
        (PyRecord.mk "client-id" [("name", .vStr "n"), ("age", .vInt 3)])).2 =
      PyRecord.mk "srv-7" [("name", .vStr "n"), ("age", .vInt 3)] :=
  ⟨by decide,
   (C9_create "srv-7" (PyRecord.mk "client-id" [("name", .vStr "n"), ("age", .vInt 3)])
      (by decide)).1,
   (C9_create "srv-7" (PyRecord.mk "client-id" [("name", .vStr "n"), ("age", .vInt 3)])
      (by decide)).2.2.1⟩

/-- C10: `list_all(limit=0)` applies no limit at all — `if limit:` is false
for `0` exactly as for `None`, so every document is returned — while any
positive limit `n` yields at most `n` records; and (unlike `execute`)
`list_all` decodes a document whose raw map is absent instead of skipping
it, as the empty map plus the id. -/
theorem C10_list_all (coll : List FsDoc) (n : Int) (hn : 0 < n) :
    FirestoreRepository.list_all coll (some 0) =
      FirestoreRepository.list_all coll none ∧
    FirestoreRepository.list_all coll none =
      coll.map (fun d => FirestoreRepository._from_dict d.raw d.id) ∧
    (FirestoreRepository.list_all coll (some n)).length ≤ n.toNat ∧
    (∀ i : String, FirestoreRepository._from_dict none i = ⟨i, []⟩) := by
  refine ⟨rfl, rfl, ?_, fun i => rfl⟩
  unfold FirestoreRepository.list_all FirestoreRepository.streamCollection
  have hne : n ≠ 0 := by omega
  dsimp only
  rw [if_pos hne]
  show ((coll.take n.toNat).map _).length ≤ n.toNat
  rw [List.length_map]
  exact List.length_take_le n.toNat coll

/-- Witness for C10: on a collection of five documents (one with an absent
raw map), `list_all(limit=2)` returns exactly the first two decoded records
and `list_all(limit=0)` returns all five. -/
theorem C10_witness :
    (0 : Int) < 2 ∧
    (FirestoreRepository.list_all
      [⟨some [("a", .vInt 1)], "d1"⟩, ⟨none, "d2"⟩, ⟨some [("a", .vInt 3)], "d3"⟩,
       ⟨some [("a", .vInt 4)], "d4"⟩, ⟨some [("a", .vInt 5)], "d5"⟩]
      (some 2)).length ≤ (2 : Int).toNat ∧
    FirestoreRepository.list_all
      [⟨some [("a", .vInt 1)], "d1"⟩, ⟨none, "d2"⟩, ⟨some [("a", .vInt 3)], "d3"⟩,
       ⟨some [("a", .vInt 4)], "d4"⟩, ⟨some [("a", .vInt 5)], "d5"⟩]
      (some 0) =
    FirestoreRepository.list_all
      [⟨some [("a", .vInt 1)], "d1"⟩, ⟨none, "d2"⟩, ⟨some [("a", .vInt 3)], "d3"⟩,
       ⟨some [("a", .vInt 4)], "d4"⟩, ⟨some [("a", .vInt 5)], "d5"⟩]
      none :=
  ⟨by decide,
   (C10_list_all
      [⟨some [("a", .vInt 1)], "d1"⟩, ⟨none, "d2"⟩, ⟨some [("a", .vInt 3)], "d3"⟩,
       ⟨some [("a", .vInt 4)], "d4"⟩, ⟨some [("a", .vInt 5)], "d5"⟩]
      2 (by decide)).2.2.1,
   (C10_list_all
      [⟨some [("a", .vInt 1)], "d1"⟩, ⟨none, "d2"⟩, ⟨some [("a", .vInt 3)], "d3"⟩,
       ⟨some [("a", .vInt 4)], "d4"⟩, ⟨some [("a", .vInt 5)], "d5"⟩]
      2 (by decide)).1⟩
